import Mathlib

/-!
Verification development for the dungeon-terrain item system.

The definitions below are a shallow embedding of the JavaScript sources:
`src/items.js` (item catalog) and the item distribution / pickup / equip
module (`distributeItems`, `updateMapWithItems`, `getItemAtPosition`,
`pickupItem`, `autoEquipItem`, `renderInventory`).

Modelling conventions:
* `Math.random()` draws are modelled as an explicit stream of rational
  numbers in `[0,1)` (`U01`), consumed in exactly the order the source
  calls `Math.random()`; an exhausted stream yields `0`, itself a legal
  draw.
* JavaScript values that may be `null`/`undefined` are modelled with
  `Option`; a thrown `TypeError` is modelled as `Except.error ()`.
* The process-wide mutable `mapItems` registry and the in-place map and
  player mutations are modelled by explicit state passing: each function
  takes the prior state and returns the new one.
* `console.log`/`console.error`/`console.trace` calls are pure logging and
  are elided; the one place where a log statement has a semantic effect
  (a template literal dereferencing a possibly-absent object, which throws)
  is modelled explicitly as `Except.error`.
* Combat-only fields of catalog entries (stat-scaling maps, status-effect
  closures, stat modifiers) are functions/records referenced by no claim
  and are elided from the `Item` record; all scalar fields are kept.
-/

/-- Rational constant 0.1, written as a reduced fraction so that the kernel
can evaluate equality on it (`Rat.ofScientific` does not kernel-reduce). -/
def w01 : ℚ := ⟨1, 10, by decide, by decide⟩

/-- Rational constant 0.2 as a reduced fraction. -/
def w02 : ℚ := ⟨1, 5, by decide, by decide⟩

/-- Rational constant 0.3 as a reduced fraction. -/
def w03 : ℚ := ⟨3, 10, by decide, by decide⟩

/-- Rational constant 0.4 as a reduced fraction. -/
def w04 : ℚ := ⟨2, 5, by decide, by decide⟩

/-- Rational constant 0.5 as a reduced fraction. -/
def w05 : ℚ := ⟨1, 2, by decide, by decide⟩

/-- Rational constant 0.6 as a reduced fraction. -/
def w06 : ℚ := ⟨3, 5, by decide, by decide⟩

/-- Item record, the shared shape of the `Item`/`Weapon`/`Armor`/`Ring`/
`Talisman` classes of `src/items.js`.  Kind-specific fields are `Option`s
that are `none` for kinds that do not carry them. -/
structure Item where
  id : String
  name : String
  description : String
  value : ℕ
  weight : ℚ
  rarity : String
  quantity : ℕ
  type : String
  damageType : Option String
  baseDamage : Option ℤ
  slot : Option String
  defense : Option ℤ
  twoHanded : Bool
  specialEffect : Option String
deriving DecidableEq

/-- Constructor mirroring `new Weapon(...)` (quantity defaults to 1,
twoHanded defaults to false). -/
def mkWeapon (id name description : String) (value : ℕ) (weight : ℚ)
    (rarity damageType : String) (baseDamage : ℤ) : Item :=
  ⟨id, name, description, value, weight, rarity, 1, "weapon",
    some damageType, some baseDamage, none, none, false, none⟩

/-- Constructor mirroring `new Armor(...)`. -/
def mkArmor (id name description : String) (value : ℕ) (weight : ℚ)
    (rarity slot : String) (defense : ℤ) : Item :=
  ⟨id, name, description, value, weight, rarity, 1, "armor",
    none, none, some slot, some defense, false, none⟩

/-- Constructor mirroring `new Ring(...)`. -/
def mkRing (id name description : String) (value : ℕ) (weight : ℚ)
    (rarity : String) (specialEffect : Option String) : Item :=
  ⟨id, name, description, value, weight, rarity, 1, "ring",
    none, none, none, none, false, specialEffect⟩

/-- Constructor mirroring `new Talisman(...)`. -/
def mkTalisman (id name description : String) (value : ℕ) (weight : ℚ)
    (rarity : String) : Item :=
  ⟨id, name, description, value, weight, rarity, 1, "talisman",
    none, none, none, none, false, none⟩

/-- The `WEAPONS` array of `src/items.js` before the post-construction
`twoHanded` patch. -/
def WEAPONS_init : List Item :=
  [ mkWeapon "sword_short" "Short Sword"
      "A basic short sword. Fast but deals moderate damage." 50 3 "common" "slash" 10
  , mkWeapon "axe_hand" "Hand Axe"
      "A small but powerful axe. Good for chopping." 45 4 "common" "slash" 12
  , mkWeapon "mace_light" "Light Mace"
      "A lightweight mace that deals blunt damage." 40 4 "common" "blunt" 11
  , mkWeapon "dagger_silver" "Silver Dagger"
      "A sharp dagger made of silver. Effective against certain creatures." 65 1 "uncommon" "pierce" 8
  , mkWeapon "sword_great" "Greatsword"
      "A massive two-handed sword that deals heavy damage." 120 10 "uncommon" "slash" 22
  , mkWeapon "staff_flame" "Flame Staff"
      "A wooden staff topped with a red crystal that channels fire magic." 150 5 "rare" "magic" 7
  , mkWeapon "blade_frost" "Frostbite"
      "An enchanted blade that emanates cold. Chance to freeze enemies." 200 5 "rare" "slash" 15
  , mkWeapon "sword_executioner" "Executioner\x27s Blade"
      "A heavy blade designed for beheadings. High chance of dismemberment." 250 12 "epic" "slash" 25
  , mkWeapon "whip_poison" "Venom Whip"
      "A whip coated in deadly venom. Applies poison on hit." 180 3 "rare" "slash" 12
  ]

/-- The `WEAPONS` array after `items.js` lines 315-316 set
`twoHanded = true` on `sword_great` and `staff_flame`. -/
def WEAPONS : List Item :=
  WEAPONS_init.map fun w =>
    if w.id = "sword_great" ∨ w.id = "staff_flame" then
      { w with twoHanded := true }
    else w

/-- The `ARMOR` array of `src/items.js`. -/
def ARMOR : List Item :=
  [ mkArmor "helm_iron" "Iron Helmet"
      "Basic iron helmet that provides decent protection." 60 5 "common" "head" 5
  , mkArmor "hood_leather" "Leather Hood"
      "A lightweight hood that allows for better awareness." 40 2 "common" "head" 3
  , mkArmor "crown_mage" "Mage\x27s Crown"
      "A crown inscribed with arcane symbols." 120 3 "rare" "head" 2
  , mkArmor "plate_steel" "Steel Plate Armor"
      "Heavy plate armor offering excellent protection at the cost of mobility." 150 20 "uncommon" "chest" 15
  , mkArmor "robe_enchanted" "Enchanted Robes"
      "Robes imbued with magical protections." 140 5 "rare" "chest" 6
  , mkArmor "tunic_hunter" "Hunter\x27s Tunic"
      "Light leather tunic favored by hunters for its flexibility." 80 8 "uncommon" "chest" 8
  , mkArmor "greaves_iron" "Iron Greaves"
      "Standard iron leg protection." 70 12 "common" "legs" 8
  , mkArmor "pants_leather" "Leather Pants"
      "Lightweight and flexible pants made of treated leather." 45 5 "common" "legs" 4
  , mkArmor "gauntlets_iron" "Iron Gauntlets"
      "Heavy gauntlets that protect the hands and forearms." 55 7 "common" "arms" 6
  , mkArmor "bracers_leather" "Leather Bracers"
      "Light arm protection that doesn\x27t hinder movement." 35 3 "common" "arms" 3
  ]

/-- The `RINGS` array of `src/items.js`. -/
def RINGS : List Item :=
  [ mkRing "ring_strength" "Ring of Might"
      "A heavy iron ring that bolsters physical strength." 100 w02 "uncommon" none
  , mkRing "ring_dexterity" "Ring of Precision"
      "A thin silver band that enhances reflexes and coordination." 110 w01 "uncommon" none
  , mkRing "ring_intelligence" "Ring of Wisdom"
      "A ring set with a blue crystal that enhances mental faculties." 120 w02 "uncommon" none
  , mkRing "ring_vitality" "Ring of Endurance"
      "A thick bronze ring that improves constitution." 100 w03 "uncommon" none
  , mkRing "ring_fire" "Ring of Fire Resistance"
      "A ring forged in volcanic fires that grants protection from heat." 150 w02 "rare"
      (some "Reduces fire damage taken by 25%")
  , mkRing "ring_poison" "Ring of Antivenom"
      "A ring set with a green stone that neutralizes toxins." 140 w02 "rare"
      (some "Provides immunity to poison effects")
  , mkRing "ring_vampire" "Vampiric Ring"
      "A dark metal ring with red engravings that drains life from enemies." 200 w02 "epic"
      (some "Heals 10% of damage dealt")
  , mkRing "ring_luck" "Fortune\x27s Favor"
      "A gold ring with unpredictable magical properties." 180 w01 "rare"
      (some "Increases critical hit chance by 10%")
  ]

/-- The `TALISMANS` array of `src/items.js`. -/
def TALISMANS : List Item :=
  [ mkTalisman "talisman_fire" "Flame Emblem"
      "A metal emblem emblazoned with a flame symbol." 120 w05 "uncommon"
  , mkTalisman "talisman_frost" "Frost Pendant"
      "A pendant containing a shard of never-melting ice." 125 w05 "uncommon"
  , mkTalisman "talisman_bleeding" "Crimson Charm"
      "A charm made from a crimson stone that pulses like a heartbeat." 130 w04 "uncommon"
  , mkTalisman "talisman_protection" "Guardian\x27s Seal"
      "An ancient seal said to ward off harm." 180 w05 "rare"
  , mkTalisman "talisman_dragon" "Dragon\x27s Heart"
      "A talisman containing the essence of a dragon." 250 w06 "epic"
  , mkTalisman "talisman_assassin" "Assassin\x27s Mark"
      "A black medallion worn by elite assassins." 240 w03 "epic"
  , mkTalisman "talisman_berserker" "Berserker\x27s Rage"
      "A talisman that channels primal fury." 220 w05 "rare"
  ]

/-- ASCII lower-casing of one character, the behavior of JavaScript
`toLowerCase()` on the ASCII type strings used by this code base.  (Written
out instead of `Char.toLower` so that the kernel can evaluate it.) -/
def jsCharToLower (c : Char) : Char :=
  if 65 ≤ c.toNat ∧ c.toNat ≤ 90 then Char.ofNat (c.toNat + 32) else c

/-- ASCII lower-casing of a string, the behavior of `type.toLowerCase()`
for the item-type strings this code base passes around. -/
def jsToLower (s : String) : String := String.mk (s.data.map jsCharToLower)

/-- Translation of `getItemsByType(type)` from `src/items.js`: the `!type`
falsy check (empty string), then a `switch` on `type.toLowerCase()` with an
empty default.  The trailing is-array re-check of the source always passes
for the four catalog arrays and is elided. -/
def getItemsByType (ty : String) : List Item :=
  if ty = "" then []
  else
    match jsToLower ty with
    | "weapon" => WEAPONS
    | "armor" => ARMOR
    | "ring" => RINGS
    | "talisman" => TALISMANS
    | _ => []

/-- One `Math.random()` draw: a rational number `num/den` in `[0,1)`,
kept as a numerator/denominator pair so that every derived quantity
(`Math.floor(r * k)`, comparisons against decimal constants) is computed
with exact natural-number arithmetic the kernel can evaluate. -/
structure U01 where
  num : ℕ
  den : ℕ
  isLt : num < den

instance : DecidableEq U01 := fun a b =>
  decidable_of_iff (a.num = b.num ∧ a.den = b.den) (by cases a; cases b; simp)

/-- The canonical zero draw, used when a modelled random stream runs dry
(0 is itself a value `Math.random()` can return). -/
def U01.zero : U01 := ⟨0, 1, by decide⟩

/-- Rational value of a draw (used only to state the bridging lemmas that
justify the integer-arithmetic implementations below). -/
def U01.val (r : U01) : ℚ := (r.num : ℚ) / (r.den : ℚ)

/-- Translation of `Math.floor(r * k)` for a draw `r = num/den`:
`⌊(num/den)·k⌋ = (num·k) / den` in natural division. -/
def U01.floorMul (r : U01) (k : ℕ) : ℕ := r.num * k / r.den

/-- Translation of the comparison `r < a/10` (the source compares draws
against the decimal constants 0.4, 0.7 and 0.5): for `r = num/den` this is
`10·num < a·den`. -/
def U01.ltTenths (r : U01) (a : ℕ) : Prop := 10 * r.num < a * r.den

instance (r : U01) (a : ℕ) : Decidable (r.ltTenths a) := by
  unfold U01.ltTenths; infer_instance

theorem U01.den_pos (r : U01) : 0 < r.den := Nat.lt_of_le_of_lt (Nat.zero_le _) r.isLt

theorem U01.val_nonneg (r : U01) : 0 ≤ r.val := by
  have hd : (0 : ℚ) < (r.den : ℚ) := by exact_mod_cast r.den_pos
  exact div_nonneg (by positivity) (le_of_lt hd)

theorem U01.val_lt_one (r : U01) : r.val < 1 := by
  have hd : (0 : ℚ) < (r.den : ℚ) := by exact_mod_cast r.den_pos
  rw [U01.val, div_lt_one hd]
  exact_mod_cast r.isLt

/-- Bridging lemma: `floorMul` computes exactly `⌊r · k⌋` of the rational
value of the draw, i.e. it is a faithful rendering of
`Math.floor(Math.random() * k)` in exact arithmetic. -/
theorem U01.floorMul_eq (r : U01) (k : ℕ) :
    (r.floorMul k : ℤ) = ⌊r.val * (k : ℚ)⌋ := by
  have hval : r.val * (k : ℚ)
      = (((r.num * k : ℕ) : ℤ) : ℚ) / ((r.den : ℕ) : ℚ) := by
    rw [U01.val]; push_cast; ring
  rw [hval, Rat.floor_intCast_div_natCast, U01.floorMul]
  norm_cast

/-- Bridging lemma: `ltTenths a` holds exactly when the rational value of
the draw is below `a/10`, i.e. it faithfully renders the source comparisons
`roll < 0.4`, `roll < 0.7`, `roll < 0.5`. -/
theorem U01.ltTenths_iff (r : U01) (a : ℕ) :
    r.ltTenths a ↔ r.val < (a : ℚ) / 10 := by
  have hd : (0 : ℚ) < (r.den : ℚ) := by exact_mod_cast r.den_pos
  rw [U01.val, U01.ltTenths, div_lt_div_iff hd (by norm_num : (0:ℚ) < 10)]
  constructor
  · intro h
    have : ((10 * r.num : ℕ) : ℚ) < ((a * r.den : ℕ) : ℚ) := by exact_mod_cast h
    push_cast at this; linarith
  · intro h
    have : ((10 * r.num : ℕ) : ℚ) < ((a * r.den : ℕ) : ℚ) := by push_cast; linarith
    exact_mod_cast this

/-- Bound used to index catalog arrays: `Math.floor(r * k) < k` for any
draw `r ∈ [0,1)` and `k > 0`, so the source expression
`items[Math.floor(Math.random() * items.length)]` is always in range. -/
theorem U01.floorMul_lt (r : U01) (k : ℕ) (hk : 0 < k) : r.floorMul k < k := by
  rw [U01.floorMul, Nat.div_lt_iff_lt_mul r.den_pos]
  calc r.num * k < r.den * k := by
        exact Nat.mul_lt_mul_of_lt_of_le r.isLt (le_refl k) hk
    _ = k * r.den := Nat.mul_comm _ _

/-- The next `Math.random()` draw of the modelled random stream (an
exhausted stream yields 0). -/
def draw (rng : List U01) : U01 := rng.headD U01.zero

/-- The stream remaining after one draw has been consumed. -/
def drawRest (rng : List U01) : List U01 := rng.tail

/-- Reading `map[i]` for an integer index: `some` of the element when the
index is in range, `none` (JavaScript `undefined`) otherwise. -/
def getCell (m : List Char) (i : ℤ) : Option Char :=
  if 0 ≤ i then m.get? i.toNat else none

/-- Writing `map[i] = c`.  An in-range write updates the cell; the
out-of-range JavaScript behavior (array extension / plain property
creation) is outside the modelled state and leaves the list unchanged.
Every write the claims exercise is in range. -/
def setCell (m : List Char) (i : ℤ) (c : Char) : List Char :=
  if 0 ≤ i then m.set i.toNat c else m

/-- Entry of the process-wide `mapItems` registry: `{x, y, item, symbol}`. -/
structure PlacedItem where
  x : ℤ
  y : ℤ
  item : Item
  symbol : Char
deriving DecidableEq

/-- Count of navigable floor tiles: the source loop counting cells equal to
`"."`. -/
def navigableCount (m : List Char) : ℕ := m.countP (fun c => c = '.')

/-- The item-count computation of `distributeItems` (part_001 lines 37-47):
`baseItemCount = minItems + Math.floor(navigableTiles / (MAP_WIDTH*MAP_HEIGHT) * (maxItems-minItems))`
and `itemCount = Math.min(maxItems, baseItemCount + Math.floor(Math.random()*10) - 5)`.
Note the source applies only `Math.min(40, ...)`; there is no lower clamp.
Real-number arithmetic is modelled exactly over `ℚ`:
`⌊(nav/(W·H))·30⌋ = nav·30 / (W·H)` in natural division (for `W·H > 0`).
The host constants `MAP_WIDTH`/`MAP_HEIGHT` are parameters `W`/`H`. -/
def targetItemCount (W H nav : ℕ) (r : U01) : ℤ :=
  let baseItemCount : ℤ := 10 + (nav * 30 / (W * H) : ℕ)
  min 40 (baseItemCount + (r.floorMul 10 : ℤ) - 5)

/-- The type roll of the placement loop (part_001 lines 65-79): one draw
decides the item type — below 0.4 a weapon, below 0.7 armor, otherwise a
further draw splits ring/talisman 50/50 — together with the display symbol
and the stream remaining afterwards. -/
def pickTypeSym (rng : List U01) : String × Char × List U01 :=
  let rt := draw rng
  let rng3 := drawRest rng
  if rt.ltTenths 4 then ("weapon", '\\', rng3)
  else if rt.ltTenths 7 then ("armor", '&', rng3)
  else ((if (draw rng3).ltTenths 5 then "ring" else "talisman"), '$', drawRest rng3)

/-- The placement loop of `distributeItems` (part_001 lines 55-112).
`fuel` plays the role of the remaining attempt budget (`maxAttempts -
attempts`), which strictly decreases every iteration; `placed`, `attempts`,
`acc` and `rng` are the loop state.  Returns the final `mapItems` list, the
final value of `attempts`, and the rest of the random stream. -/
def distLoop (W H : ℕ) (m : List Char) (itemCount : ℤ) :
    ℕ → ℤ → ℕ → List PlacedItem → List U01 → List PlacedItem × ℕ × List U01
  | 0, _, attempts, acc, rng => (acc, attempts, rng)
  | fuel + 1, placed, attempts, acc, rng =>
    if placed < itemCount then
      let a := attempts + 1
      let x : ℤ := ((draw rng).floorMul W : ℕ)
      let rng1 := drawRest rng
      let y : ℤ := ((draw rng1).floorMul H : ℕ)
      let rng2 := drawRest rng1
      let index : ℤ := y * (W : ℤ) + x
      if getCell m index = some '.' then
        let tsr := pickTypeSym rng2
        let items := getItemsByType tsr.1
        if h : 0 < items.length then
          let ri := draw tsr.2.2
          let selectedItem := items.get ⟨ri.floorMul items.length, U01.floorMul_lt ri _ h⟩
          distLoop W H m itemCount fuel (placed + 1) a
            (acc ++ [⟨x, y, selectedItem, tsr.2.1⟩]) (drawRest tsr.2.2)
        else
          distLoop W H m itemCount fuel placed a acc tsr.2.2
      else
        distLoop W H m itemCount fuel placed a acc rng2
    else (acc, attempts, rng)

/-- Result of a `distributeItems` call: the returned sequence, the new
contents of the process-wide `mapItems` registry, the computed target
`itemCount` (0 on the early-validation return, where the source never
computes it), the final number of attempts, and the rest of the random
stream. -/
structure DistOut where
  ret : List PlacedItem
  registry : List PlacedItem
  target : ℤ
  attempts : ℕ
  rng : List U01

/-- Translation of `distributeItems(map)` (part_001 lines 14-118).  The
`map` argument is `Option` (absent maps fail validation); the prior
registry contents are an argument only to make the state change visible —
the source clears `mapItems` before validating, so they are discarded on
every path. -/
def distributeItems (W H : ℕ) (map? : Option (List Char))
    (_priorRegistry : List PlacedItem) (rng : List U01) : DistOut :=
  match map? with
  | none => ⟨[], [], 0, 0, rng⟩
  | some m =>
    if m.length = 0 then ⟨[], [], 0, 0, rng⟩
    else
      let nav := navigableCount m
      let itemCount := targetItemCount W H nav (draw rng)
      let out := distLoop W H m itemCount (itemCount * 10).toNat 0 0 [] (drawRest rng)
      ⟨out.1, out.1, itemCount, out.2.1, out.2.2⟩

/-- Translation of `updateMapWithItems(map)` (part_001 lines 124-164): for
each registry entry in order, overwrite the entry's tile with its symbol if
that tile still holds the floor code, else skip it.  The trailing
symbol-count scan is logging only.  The `!map` validity guard cannot fire
for a modelled list. -/
def updateMapWithItems (W : ℕ) : List PlacedItem → List Char → List Char
  | [], m => m
  | it :: rest, m =>
    let index : ℤ := it.y * (W : ℤ) + it.x
    updateMapWithItems W rest
      (if getCell m index = some '.' then setCell m index it.symbol else m)

/-- Translation of `getItemAtPosition(x, y)` (part_001 lines 172-199):
`findIndex` of the first registry entry matching the coordinate, `splice`
it out and return its item; `(none, registry unchanged)` when no entry
matches.  The recursion below is exactly find-first-match-and-remove. -/
def getItemAtPosition (x y : ℤ) : List PlacedItem → Option Item × List PlacedItem
  | [] => (none, [])
  | it :: rest =>
    if it.x = x ∧ it.y = y then (some it.item, rest)
    else
      let r := getItemAtPosition x y rest
      (r.1, it :: r.2)

/-- Equipment record matching the slot vocabulary consumed by
`autoEquipItem`: hand slots are arrays (`push`), the four armor slots are
single-item-or-empty, rings/talismans are arrays of item-or-empty. -/
structure Equipment where
  rightHand : List Item
  leftHand : List Item
  head : Option Item
  chest : Option Item
  legs : Option Item
  arms : Option Item
  rings : List (Option Item)
  talismans : List (Option Item)
deriving DecidableEq

/-- Player object as consumed by this module: `x`/`y` are `none` when the
corresponding JavaScript field is not a number (the source checks
`typeof player.x !== "number"`).  Non-integer numeric coordinates never
arise at the modelled call sites and are not represented.  `inventory` is
`none` when the field is absent. -/
structure PlayerJs where
  x : Option ℤ
  y : Option ℤ
  inventory : Option (List Item)
  equipment : Equipment
deriving DecidableEq

/-- Modelled from the spec: the player collaborator (its module is not part
of this repository) must expose "an `addToInventory(item)` operation", and
on pickup success the spec says the service "appends item to player
inventory"; modelled as appending to the inventory sequence. -/
def addToInventory (player : PlayerJs) (it : Item) : PlayerJs :=
  { player with inventory := some (player.inventory.getD [] ++ [it]) }

/-- Result of a `pickupItem` call: the boolean return value plus the new
player, map, registry and random-stream state. -/
structure PickupOut where
  ret : Bool
  player : PlayerJs
  map : Option (List Char)
  registry : List PlacedItem
  rng : List U01
deriving DecidableEq

instance {ε α : Type} [DecidableEq ε] [DecidableEq α] : DecidableEq (Except ε α) :=
  fun a b =>
    match a, b with
    | Except.error e, Except.error f => decidable_of_iff (e = f) (by simp)
    | Except.ok x, Except.ok y => decidable_of_iff (x = y) (by simp)
    | Except.error _, Except.ok _ => isFalse (by simp)
    | Except.ok _, Except.error _ => isFalse (by simp)

/-- Translation of `pickupItem(player, map)` (part_001 lines 207-286).
The opening `console.log` template literal dereferences `player.x`, so an
absent player throws a `TypeError` (`Except.error`) before any validation
guard runs; after that the source validates the map (absent or zero
length: return `false`, no mutation), then the player coordinates, then
looks the coordinate up in the registry, falling back to synthesizing a
catalog item when the grid cell still carries an item symbol. -/
def pickupItem (W : ℕ) (player? : Option PlayerJs) (map? : Option (List Char))
    (registry : List PlacedItem) (rng : List U01) : Except Unit PickupOut :=
  match player? with
  | none => Except.error ()
  | some player =>
    match map? with
    | none => Except.ok ⟨false, player, none, registry, rng⟩
    | some m =>
      if m.length = 0 then Except.ok ⟨false, player, some m, registry, rng⟩
      else
        match player.x, player.y with
        | some px, some py =>
          let found := getItemAtPosition px py registry
          let next : Option Item × List PlacedItem × List U01 :=
            match found.1 with
            | some it => (some it, found.2, rng)
            | none =>
              let cellChar := getCell m (py * (W : ℤ) + px)
              if cellChar = some '\\' ∨ cellChar = some '&' ∨ cellChar = some '$' then
                let ty :=
                  if cellChar = some '\\' then "weapon"
                  else if cellChar = some '&' then "armor"
                  else if (draw rng).ltTenths 5 then "ring" else "talisman"
                let rngT :=
                  if cellChar = some '\\' ∨ cellChar = some '&' then rng else drawRest rng
                let items := getItemsByType ty
                if h : 0 < items.length then
                  let ri := draw rngT
                  (some (items.get ⟨ri.floorMul items.length, U01.floorMul_lt ri _ h⟩),
                    found.2, drawRest rngT)
                else (none, found.2, rngT)
              else (none, found.2, rng)
          match next.1 with
          | some it =>
            Except.ok ⟨true, addToInventory player it,
              some (setCell m (py * (W : ℤ) + px) '.'), next.2.1, next.2.2⟩
          | none => Except.ok ⟨false, player, some m, next.2.1, next.2.2⟩
        | _, _ => Except.ok ⟨false, player, some m, registry, rng⟩

/-- JavaScript truthiness of `player.equipment[slot]` for a slot-name
string: the four armor slots are truthy when occupied; the hand and
ring/talisman slots hold arrays, which are always truthy in JavaScript;
any other name is an absent property (falsy).  (Assigning to a
non-armor-slot name would create a fresh property invisible to the
modelled state; no catalog armor has such a slot.) -/
def slotTruthy (e : Equipment) (s : String) : Bool :=
  match s with
  | "head" => e.head.isSome
  | "chest" => e.chest.isSome
  | "legs" => e.legs.isSome
  | "arms" => e.arms.isSome
  | "rightHand" => true
  | "leftHand" => true
  | "rings" => true
  | "talismans" => true
  | _ => false

/-- Assignment `player.equipment[slot] = item` for the four armor-slot
names; any other name is a fresh property outside the modelled record. -/
def slotSet (e : Equipment) (s : String) (it : Item) : Equipment :=
  match s with
  | "head" => { e with head := some it }
  | "chest" => { e with chest := some it }
  | "legs" => { e with legs := some it }
  | "arms" => { e with arms := some it }
  | _ => e

/-- The ring/talisman loop of `autoEquipItem`: scan for the first falsy
(empty) index and assign there, returning the updated array; `none` when
every index is occupied (the loop falls through). -/
def equipFirstEmpty (it : Item) : List (Option Item) → Option (List (Option Item))
  | [] => none
  | none :: rest => some (some it :: rest)
  | some x :: rest => Option.map (fun l => some x :: l) (equipFirstEmpty it rest)

/-- Translation of `autoEquipItem(player, item)` (part_001 lines 294-340):
`if (!item) return false`, then a switch on `item.type` — weapons try the
right hand then the left (`!hand.length`), armor requires a truthy `slot`
naming a falsy equipment property, rings/talismans take the first empty
index of their array; every other path falls through to `false`. -/
def autoEquipItem (player : PlayerJs) (item? : Option Item) : Bool × PlayerJs :=
  match item? with
  | none => (false, player)
  | some item =>
    let e := player.equipment
    if item.type = "weapon" then
      if e.rightHand = [] then
        (true, { player with equipment := { e with rightHand := e.rightHand ++ [item] } })
      else if e.leftHand = [] then
        (true, { player with equipment := { e with leftHand := e.leftHand ++ [item] } })
      else (false, player)
    else if item.type = "armor" then
      match item.slot with
      | some s =>
        if s ≠ "" ∧ slotTruthy e s = false then
          (true, { player with equipment := slotSet e s item })
        else (false, player)
      | none => (false, player)
    else if item.type = "ring" then
      match equipFirstEmpty item e.rings with
      | some l => (true, { player with equipment := { e with rings := l } })
      | none => (false, player)
    else if item.type = "talisman" then
      match equipFirstEmpty item e.talismans with
      | some l => (true, { player with equipment := { e with talismans := l } })
      | none => (false, player)
    else (false, player)

/-- Grouping step of `renderInventory`: JavaScript object keys preserve
insertion order of first occurrence, so `inventoryByType` is an
association list grown in inventory order. -/
def bucketAdd : List (String × List Item) → Item → List (String × List Item)
  | [], it => [(it.type, [it])]
  | (ty, its) :: rest, it =>
    if ty = it.type then (ty, its ++ [it]) :: rest
    else (ty, its) :: bucketAdd rest it

/-- The clickable-span template literal of `renderInventory` (part_001
lines 401-409), reproduced with its literal newlines and indentation;
`itemIndex` is the `findIndex` over the raw inventory by name and type
(always found, since the item comes from that inventory). -/
def inventorySpan (inv : List Item) (item : Item) : String :=
  let itemIndex := inv.findIdx (fun i => i.name == item.name && i.type == item.type)
  let suffix := if item.quantity > 1 then " (" ++ toString item.quantity ++ ")" else ""
  "<span class=\"inventory-item\" \n                   data-item-index=\"" ++ toString itemIndex
    ++ "\" \n                   data-item-type=\"" ++ item.type
    ++ "\"\n                   data-item-name=\"" ++ item.name
    ++ "\"\n                   style=\"text-decoration: underline; cursor: pointer; color: var(--item-color-"
    ++ item.type ++ ")\">" ++ item.name ++ suffix ++ "</span>"

/-- Translation of `renderInventory(player)` (part_001 lines 347-417).
The opening debug `console.log` reads `player.inventory.length`, which
throws a `TypeError` when the player is absent or has no inventory — so
the `"| INVENTORY: Error"` guard below it is unreachable for those inputs.
A zero-length inventory renders the fixed Empty string; otherwise the
inventory is grouped by type (skipping items with a falsy type; `null`
inventory entries are not representable in the model) and rendered as
comma-joined spans. -/
def renderInventory (player? : Option PlayerJs) : Except Unit String :=
  match player? with
  | none => Except.error ()
  | some player =>
    match player.inventory with
    | none => Except.error ()
    | some inv =>
      if inv.length = 0 then Except.ok "| INVENTORY: Empty"
      else
        let inventoryByType :=
          inv.foldl (fun g it => if it.type = "" then g else bucketAdd g it) []
        let items :=
          inventoryByType.foldl (fun acc e => acc ++ e.2.map (inventorySpan inv)) ([] : List String)
        Except.ok ("| INVENTORY: " ++ String.intercalate ", " items)

/-! Shared concrete fixtures used by witnesses and counterexamples. -/

/-- Equipment with every slot empty and two ring / two talisman slots. -/
def emptyEquipment : Equipment :=
  ⟨[], [], none, none, none, none, [none, none], [none, none]⟩

/-- The first catalog weapon, `sword_short`. -/
def shortSword : Item := WEAPONS.get ⟨0, by decide⟩

/-- The second catalog weapon, `axe_hand`. -/
def handAxe : Item := WEAPONS.get ⟨1, by decide⟩

/-- The catalog weapon `sword_great`, which is two-handed. -/
def greatsword : Item := WEAPONS.get ⟨4, by decide⟩

/-- A 31-cell one-row map with a single floor tile, so that
`navigableTiles/(W·H) · 30` floors to 0. -/
def sparseMap : List Char := '.' :: List.replicate 30 '#'

/-- A valid player standing at the origin with an empty inventory. -/
def basePlayer : PlayerJs := ⟨some 0, some 0, some [], emptyEquipment⟩

/-- A registry entry at the origin holding `sword_short`. -/
def strayEntry : PlacedItem := ⟨0, 0, shortSword, '\\'⟩

/-- A second registry entry at the same origin coordinate, holding
`axe_hand`: its coordinate collides with `strayEntry`. -/
def dupEntry : PlacedItem := ⟨0, 0, handAxe, '\\'⟩

/-! Helper lemmas about cells, the map projection and the registry. -/

theorem getCell_some_bounds {m : List Char} {i : ℤ} {c : Char}
    (h : getCell m i = some c) : 0 ≤ i ∧ i.toNat < m.length := by
  by_cases h0 : 0 ≤ i
  · refine ⟨h0, ?_⟩
    rw [getCell, if_pos h0] at h
    obtain ⟨hlt, _⟩ := List.get?_eq_some.mp h
    exact hlt
  · rw [getCell, if_neg h0] at h
    exact absurd h (by simp)

theorem getCell_some_mem {m : List Char} {i : ℤ} {c : Char}
    (h : getCell m i = some c) : c ∈ m := by
  by_cases h0 : 0 ≤ i
  · rw [getCell, if_pos h0] at h
    exact List.get?_mem h
  · rw [getCell, if_neg h0] at h
    exact absurd h (by simp)

theorem setCell_length (m : List Char) (i : ℤ) (c : Char) :
    (setCell m i c).length = m.length := by
  rw [setCell]; split <;> simp

theorem list_set_get? (l : List Char) (n : ℕ) (c : Char) (h : n < l.length) :
    (l.set n c).get? n = some c := by
  induction l generalizing n with
  | nil => simp at h
  | cons a t ih =>
    cases n with
    | zero => rfl
    | succ k => simpa using ih k (by simpa using h)

theorem getCell_setCell_self {m : List Char} {i : ℤ} (c : Char)
    (h0 : 0 ≤ i) (h1 : i.toNat < m.length) :
    getCell (setCell m i c) i = some c := by
  rw [setCell, if_pos h0, getCell, if_pos h0]
  exact list_set_get? m i.toNat c h1

theorem updateMapWithItems_length (W : ℕ) (reg : List PlacedItem) (m : List Char) :
    (updateMapWithItems W reg m).length = m.length := by
  induction reg generalizing m with
  | nil => rfl
  | cons p rest ih =>
    rw [updateMapWithItems, ih]
    split <;> simp [setCell_length]

theorem getItemAtPosition_none (x y : ℤ) (reg : List PlacedItem)
    (h : ∀ q ∈ reg, ¬(q.x = x ∧ q.y = y)) :
    getItemAtPosition x y reg = (none, reg) := by
  induction reg with
  | nil => rfl
  | cons q rest ih =>
    rw [getItemAtPosition, if_neg (h q (List.mem_cons_self q rest))]
    have := ih (fun r hr => h r (List.mem_cons_of_mem q hr))
    simp [this]

theorem getItemAtPosition_found (p : PlacedItem) (reg : List PlacedItem)
    (hnd : (reg.map fun q => (q.x, q.y)).Nodup) (hp : p ∈ reg) :
    (getItemAtPosition p.x p.y reg).1 = some p.item ∧
    p ∉ (getItemAtPosition p.x p.y reg).2 ∧
    (getItemAtPosition p.x p.y reg).2.length + 1 = reg.length ∧
    (∀ q ∈ reg, q ≠ p → q ∈ (getItemAtPosition p.x p.y reg).2) := by
  induction reg with
  | nil => exact absurd hp (List.not_mem_nil p)
  | cons q rest ih =>
    rw [List.map_cons, List.nodup_cons] at hnd
    obtain ⟨hhead, htail⟩ := hnd
    by_cases hc : q.x = p.x ∧ q.y = p.y
    · have hqp : p = q := by
        rcases List.mem_cons.mp hp with h | h
        · exact h
        · exfalso
          apply hhead
          rw [hc.1, hc.2]
          exact List.mem_map.mpr ⟨p, h, rfl⟩
      subst hqp
      have hstep : getItemAtPosition p.x p.y (p :: rest) = (some p.item, rest) := by
        rw [getItemAtPosition, if_pos hc]
      have hnotin : p ∉ rest := by
        intro hmem
        exact hhead (List.mem_map.mpr ⟨p, hmem, rfl⟩)
      refine ⟨by rw [hstep], by rw [hstep]; exact hnotin, by rw [hstep]; simp, ?_⟩
      intro r hr hrp
      rw [hstep]
      rcases List.mem_cons.mp hr with h | h
      · exact absurd h hrp
      · exact h
    · have hprest : p ∈ rest := by
        rcases List.mem_cons.mp hp with h | h
        · exact absurd ⟨congrArg PlacedItem.x h.symm, congrArg PlacedItem.y h.symm⟩ hc
        · exact h
      obtain ⟨ih1, ih2, ih3, ih4⟩ := ih htail hprest
      have hqnep : p ≠ q := by
        intro h; subst h; exact hc ⟨rfl, rfl⟩
      have hstep : getItemAtPosition p.x p.y (q :: rest)
          = ((getItemAtPosition p.x p.y rest).1, q :: (getItemAtPosition p.x p.y rest).2) := by
        rw [getItemAtPosition, if_neg hc]
      refine ⟨?_, ?_, ?_, ?_⟩
      · rw [hstep]; exact ih1
      · rw [hstep]
        intro hmem
        rcases List.mem_cons.mp hmem with h | h
        · exact hqnep h
        · exact ih2 h
      · rw [hstep]
        simp only [List.length_cons]
        omega
      · intro r hr hrp
        rw [hstep]
        rcases List.mem_cons.mp hr with h | h
        · rw [h]; exact List.mem_cons_self q _
        · exact List.mem_cons_of_mem q (ih4 r h hrp)

/-- C1 (counterexample): the claim "no two entries of the returned Placed
Item sequence share a coordinate" is false.  On the valid 31-by-1 map with
one floor tile, with every random draw equal to 0 (a legal value of
`Math.random()`), `distributeItems` places five items, all at coordinate
(0,0): the floor re-check cannot prevent duplicates because
`distributeItems` never writes to the map, so the chosen tile still reads
`'.'` on every attempt. -/
theorem distributeItems_duplicate_coordinate :
    ¬ (((distributeItems 31 1 (some sparseMap) [] []).registry.map
          fun p => (p.x, p.y)).Nodup) := by decide

/-- C2 (code bug evaluation): the source computes
`itemCount = Math.min(40, base + roll - 5)` with no lower clamp, although
its own comment says "between 10 and 40" and it defines `minItems = 10`.
On the valid sparse map with first draw 0 the target is 5 < 10, and only
5 items are placed — below the claimed lower bound 10. -/
theorem distributeItems_target_below_ten :
    (distributeItems 31 1 (some sparseMap) [] []).target = 5 ∧
    (distributeItems 31 1 (some sparseMap) [] []).target < 10 ∧
    (distributeItems 31 1 (some sparseMap) [] []).registry.length = 5 := by
  decide

/-- C6 (code bug evaluation): for an absent player `pickupItem` throws a
`TypeError` (the opening debug log dereferences `player.x`) instead of
returning false, while the remaining validation cases do return false with
no mutation: a present player without numeric coordinates, and a present
player with an absent map. -/
theorem pickupItem_absent_player_throws :
    pickupItem 1 none (some ['.']) [] [] = Except.error () ∧
    pickupItem 1 (some ⟨none, none, some [], emptyEquipment⟩) (some ['.']) [] []
      = Except.ok ⟨false, ⟨none, none, some [], emptyEquipment⟩, some ['.'], [], []⟩ ∧
    pickupItem 1 (some basePlayer) none [] []
      = Except.ok ⟨false, basePlayer, none, [], []⟩ ∧
    pickupItem 1 (some basePlayer) (some []) [] []
      = Except.ok ⟨false, basePlayer, some [], [], []⟩ := by
  decide

/-- C7 (code bug evaluation): for an absent player, or a player without an
inventory, `renderInventory` throws a `TypeError` (the opening debug log
reads `player.inventory.length`) instead of returning the fixed Error
string; the Empty case does return the fixed Empty string. -/
theorem renderInventory_malformed_throws :
    renderInventory none = Except.error () ∧
    renderInventory (some ⟨none, none, none, emptyEquipment⟩) = Except.error () ∧
    renderInventory (some ⟨none, none, some [], emptyEquipment⟩)
      = Except.ok "| INVENTORY: Empty" := by
  decide

/-- C8 (counterexample): the claim "the Map Item Registry holds the same
contents after the failed call as before it" is false: `distributeItems`
clears `mapItems` before validating its argument, so a failed call on an
absent map discards a non-empty prior registry. -/
theorem distributeItems_clears_registry_on_invalid :
    (distributeItems 3 3 none [strayEntry] []).ret = [] ∧
    (distributeItems 3 3 none [strayEntry] []).registry ≠ [strayEntry] := by
  decide

/-- C8 (amended): when `distributeItems` is called with an absent map or a
map of zero length it returns the empty sequence, and the registry is
cleared to empty — the prior contents are discarded, not preserved. -/
theorem distributeItems_invalid_map (W H : ℕ) (reg : List PlacedItem)
    (rng : List U01) (map? : Option (List Char))
    (h : map? = none ∨ map? = some []) :
    (distributeItems W H map? reg rng).ret = [] ∧
    (distributeItems W H map? reg rng).registry = [] := by
  rcases h with h | h <;> subst h <;> exact ⟨rfl, rfl⟩

/-- C8 (witness): the amended statement at a concrete input. -/
theorem distributeItems_invalid_map_witness :
    (distributeItems 4 4 none [strayEntry] []).ret = [] ∧
    (distributeItems 4 4 none [strayEntry] []).registry = [] :=
  distributeItems_invalid_map 4 4 [strayEntry] [] none (Or.inl rfl)

/-- C10 (counterexample): the claim "for every player who already holds a
two-handed weapon in a hand slot, autoEquipItem of any further weapon
returns false" is false: with the two-handed `sword_great` in the right
hand and an empty left hand, equipping `sword_short` succeeds and puts it
in the left hand — `autoEquipItem` never consults the `twoHanded` flag. -/
theorem autoEquip_ignores_twoHanded :
    greatsword.twoHanded = true ∧
    (autoEquipItem ⟨none, none, some [],
        ⟨[greatsword], [], none, none, none, none, [none, none], [none, none]⟩⟩
      (some shortSword)).1 = true ∧
    (autoEquipItem ⟨none, none, some [],
        ⟨[greatsword], [], none, none, none, none, [none, none], [none, none]⟩⟩
      (some shortSword)).2.equipment.leftHand = [shortSword] := by
  decide

/-- C10 (amended): hand-slot capacity ignores two-handedness.  For a
player holding a two-handed weapon in the right hand, `autoEquipItem` of a
further weapon succeeds exactly when the left hand is empty; it is refused
only when both hands are non-empty. -/
theorem autoEquip_weapon_iff_free_hand (player : PlayerJs) (w item : Item)
    (hw : player.equipment.rightHand = [w]) (h2 : w.twoHanded = true)
    (ht : item.type = "weapon") :
    ((autoEquipItem player (some item)).1 = true
      ↔ player.equipment.leftHand = []) := by
  have hr : player.equipment.rightHand ≠ [] := by rw [hw]; simp
  by_cases hl : player.equipment.leftHand = []
  · simp [autoEquipItem, ht, hr, hl]
  · simp [autoEquipItem, ht, hr, hl]

/-- C10 (witness): the amended statement at a concrete input. -/
theorem autoEquip_weapon_iff_free_hand_witness :
    ((autoEquipItem ⟨none, none, some [],
        ⟨[greatsword], [], none, none, none, none, [none, none], [none, none]⟩⟩
      (some shortSword)).1 = true
      ↔ (⟨none, none, some [],
          ⟨[greatsword], [], none, none, none, none, [none, none], [none, none]⟩⟩
            : PlayerJs).equipment.leftHand = []) :=
  autoEquip_weapon_iff_free_hand _ greatsword shortSword rfl (by decide) (by decide)

theorem distLoop_floor_inv (W H : ℕ) (m : List Char) (ic : ℤ) :
    ∀ (fuel : ℕ) (placed : ℤ) (att : ℕ) (acc : List PlacedItem) (rng : List U01),
      (∀ p ∈ acc, getCell m (p.y * (W : ℤ) + p.x) = some '.') →
      ∀ p ∈ (distLoop W H m ic fuel placed att acc rng).1,
        getCell m (p.y * (W : ℤ) + p.x) = some '.' := by
  intro fuel
  induction fuel with
  | zero =>
    intro placed att acc rng hacc p hp
    exact hacc p hp
  | succ n ih =>
    intro placed att acc rng hacc p hp
    simp only [distLoop] at hp
    split at hp
    · split at hp
      · rename_i hfloor
        split at hp
        · refine ih _ _ _ _ ?_ p hp
          intro q hq
          rcases List.mem_append.mp hq with h | h
          · exact hacc q h
          · rw [List.mem_singleton] at h
            subst h
            simpa using hfloor
        · exact ih _ _ _ _ hacc p hp
      · exact ih _ _ _ _ hacc p hp
    · exact hacc p hp

theorem distLoop_attempts_le (W H : ℕ) (m : List Char) (ic : ℤ) :
    ∀ (fuel : ℕ) (placed : ℤ) (att : ℕ) (acc : List PlacedItem) (rng : List U01),
      (distLoop W H m ic fuel placed att acc rng).2.1 ≤ att + fuel := by
  intro fuel
  induction fuel with
  | zero =>
    intro placed att acc rng
    simp [distLoop]
  | succ n ih =>
    intro placed att acc rng
    simp only [distLoop]
    split
    · split
      · split
        · exact le_trans (ih _ _ _ _) (by omega)
        · exact le_trans (ih _ _ _ _) (by omega)
      · exact le_trans (ih _ _ _ _) (by omega)
    · simp

theorem distLoop_no_floor (W H : ℕ) (m : List Char) (ic : ℤ) (hm : '.' ∉ m) :
    ∀ (fuel : ℕ) (placed : ℤ) (att : ℕ) (acc : List PlacedItem) (rng : List U01),
      (distLoop W H m ic fuel placed att acc rng).1 = acc := by
  intro fuel
  induction fuel with
  | zero =>
    intro placed att acc rng
    rfl
  | succ n ih =>
    intro placed att acc rng
    simp only [distLoop]
    split
    · split
      · rename_i hfloor
        exact absurd (getCell_some_mem hfloor) hm
      · exact ih _ _ _ _
    · rfl

/-- C1 (amended): after `distributeItems` on a valid map, every Placed
Item of the returned registry has a coordinate whose tile held the floor
code `'.'` immediately before the entry was registered — since
`distributeItems` never mutates the map, that is precisely the tile of the
input map.  (The claimed coordinate uniqueness does not hold; see the
counterexample.) -/
theorem distributeItems_places_only_on_floor (W H : ℕ) (m : List Char)
    (reg : List PlacedItem) (rng : List U01) (p : PlacedItem)
    (hp : p ∈ (distributeItems W H (some m) reg rng).registry) :
    getCell m (p.y * (W : ℤ) + p.x) = some '.' := by
  by_cases hm : m.length = 0
  · simp only [distributeItems, if_pos hm] at hp
    exact absurd hp (List.not_mem_nil p)
  · simp only [distributeItems, if_neg hm] at hp
    exact distLoop_floor_inv W H m _ _ _ _ _ _
      (fun q hq => absurd hq (List.not_mem_nil q)) p hp

/-- C1 (witness): the amended statement at a concrete input — the first
entry placed on the sparse map sits at (0,0), a floor tile. -/
theorem distributeItems_places_only_on_floor_witness :
    getCell sparseMap (strayEntry.y * (31 : ℤ) + strayEntry.x) = some '.' :=
  distributeItems_places_only_on_floor 31 1 sparseMap [] [] strayEntry (by decide)

/-- C9: `distributeItems` always terminates with at most
`10 × targetCount` placement attempts in total (the returned `attempts`
counter is bounded by the attempt budget `itemCount * 10`), and on a map
with zero floor tiles it places zero items. -/
theorem distributeItems_attempt_bound (W H : ℕ) (map? : Option (List Char))
    (reg : List PlacedItem) (rng : List U01) :
    (distributeItems W H map? reg rng).attempts
      ≤ ((distributeItems W H map? reg rng).target * 10).toNat ∧
    (∀ m, map? = some m → '.' ∉ m →
      (distributeItems W H map? reg rng).registry = []) := by
  constructor
  · cases map? with
    | none => simp [distributeItems]
    | some m =>
      by_cases hm : m.length = 0
      · simp [distributeItems, hm]
      · simp only [distributeItems, if_neg hm]
        simpa using distLoop_attempts_le W H m _ _ _ 0 [] _
  · intro m hEq hfloor
    subst hEq
    by_cases hm : m.length = 0
    · simp [distributeItems, hm]
    · simp only [distributeItems, if_neg hm]
      simpa using distLoop_no_floor W H m _ hfloor _ _ 0 [] _

/-- C9 (witness): the statement at a concrete input — a one-cell map with
no floor tile. -/
theorem distributeItems_attempt_bound_witness :
    (distributeItems 1 1 (some ['#']) [] []).attempts
      ≤ ((distributeItems 1 1 (some ['#']) [] []).target * 10).toNat ∧
    (distributeItems 1 1 (some ['#']) [] []).registry = [] :=
  ⟨(distributeItems_attempt_bound 1 1 (some ['#']) [] []).1,
   (distributeItems_attempt_bound 1 1 (some ['#']) [] []).2 ['#'] rfl (by decide)⟩

theorem weapons_all_weapon_type : ∀ w ∈ WEAPONS, w.type = "weapon" := by decide

/-- C3 (amended): for every map and registry whose entries have pairwise
distinct coordinates — the uniqueness invariant the spec claims elsewhere —
and every entry `p` whose tile still holds the floor code, running
`updateMapWithItems` and then `pickupItem` with the player at the
coordinate of `p` returns true, appends exactly the item of `p` to the
player inventory, removes exactly `p` from the registry, and resets the
tile at the coordinate of `p` to `'.'`.  (Without the distinct-coordinates
hypothesis the claim fails; see the counterexample.) -/
theorem pickup_roundtrip (W : ℕ) (m : List Char) (reg : List PlacedItem)
    (p : PlacedItem) (player : PlayerJs) (inv : List Item) (rng : List U01)
    (hnd : (reg.map fun q => (q.x, q.y)).Nodup)
    (hp : p ∈ reg)
    (hfloor : getCell m (p.y * (W : ℤ) + p.x) = some '.')
    (hx : player.x = some p.x) (hy : player.y = some p.y)
    (hinv : player.inventory = some inv) :
    ∃ out : PickupOut,
      pickupItem W (some player) (some (updateMapWithItems W reg m)) reg rng
        = Except.ok out ∧
      out.ret = true ∧
      out.player.inventory = some (inv ++ [p.item]) ∧
      p ∉ out.registry ∧
      out.registry.length + 1 = reg.length ∧
      (∀ q ∈ reg, q ≠ p → q ∈ out.registry) ∧
      ∃ m2, out.map = some m2 ∧ getCell m2 (p.y * (W : ℤ) + p.x) = some '.' := by
  obtain ⟨hi0, hi1⟩ := getCell_some_bounds hfloor
  have hlen : (updateMapWithItems W reg m).length = m.length :=
    updateMapWithItems_length W reg m
  have hne : ¬ ((updateMapWithItems W reg m).length = 0) := by omega
  obtain ⟨h1, h2, h3, h4⟩ := getItemAtPosition_found p reg hnd hp
  refine ⟨⟨true, addToInventory player p.item,
      some (setCell (updateMapWithItems W reg m) (p.y * (W : ℤ) + p.x) '.'),
      (getItemAtPosition p.x p.y reg).2, rng⟩, ?_, rfl, ?_, h2, h3, h4, ?_⟩
  · simp only [pickupItem, hx, hy, if_neg hne, h1]
  · simp [addToInventory, hinv]
  · exact ⟨_, rfl, getCell_setCell_self '.' hi0 (by omega)⟩

/-- C3 (witness): the amended round-trip at a concrete input — one entry
at the origin of a one-cell floor map. -/
theorem pickup_roundtrip_witness :
    ∃ out : PickupOut,
      pickupItem 1 (some basePlayer)
          (some (updateMapWithItems 1 [strayEntry] ['.'])) [strayEntry] []
        = Except.ok out ∧
      out.ret = true ∧
      out.player.inventory = some ([] ++ [strayEntry.item]) ∧
      strayEntry ∉ out.registry ∧
      out.registry.length + 1 = [strayEntry].length ∧
      (∀ q ∈ [strayEntry], q ≠ strayEntry → q ∈ out.registry) ∧
      ∃ m2, out.map = some m2 ∧
        getCell m2 (strayEntry.y * (1 : ℤ) + strayEntry.x) = some '.' :=
  pickup_roundtrip 1 ['.'] [strayEntry] strayEntry basePlayer [] []
    (by decide) (by decide) (by decide) rfl rfl rfl

/-- C3 (counterexample): with two registry entries at the same coordinate
(reachable, since `distributeItems` can place duplicates), the round-trip
at the second entry `dupEntry` returns the FIRST entry's item — the
inventory receives `sword_short`, not `dupEntry`'s `axe_hand` — and
`dupEntry` is not removed from the registry, refuting the claim as stated
for the entry `dupEntry`. -/
theorem pickup_roundtrip_duplicate_fails :
    (∃ out : PickupOut,
      pickupItem 1 (some basePlayer)
          (some (updateMapWithItems 1 [strayEntry, dupEntry] ['.']))
          [strayEntry, dupEntry] []
        = Except.ok out ∧
      out.player.inventory = some [shortSword] ∧
      out.player.inventory ≠ some ([] ++ [dupEntry.item]) ∧
      dupEntry ∈ out.registry) ∧
    getCell ['.'] (dupEntry.y * (1 : ℤ) + dupEntry.x) = some '.' := by
  refine ⟨⟨⟨true, ⟨some 0, some 0, some [shortSword], emptyEquipment⟩,
      some ['.'], [dupEntry], []⟩, ?_, ?_, ?_, ?_⟩, ?_⟩ <;> decide

/-- C5: when no registry entry exists at the player's coordinate but the
grid cell at `y*W + x` still holds the weapon symbol, `pickupItem`
synthesizes a random weapon from the catalog, appends it to the player's
inventory, resets the cell to the floor code `'.'`, returns true, and
leaves the registry unchanged. -/
theorem pickup_fallback_weapon (W : ℕ) (m : List Char) (reg : List PlacedItem)
    (player : PlayerJs) (px py : ℤ) (inv : List Item) (r : U01) (rest : List U01)
    (hx : player.x = some px) (hy : player.y = some py)
    (hinv : player.inventory = some inv)
    (hcell : getCell m (py * (W : ℤ) + px) = some '\\')
    (hreg : ∀ q ∈ reg, ¬(q.x = px ∧ q.y = py)) :
    ∃ out : PickupOut,
      pickupItem W (some player) (some m) reg (r :: rest) = Except.ok out ∧
      out.ret = true ∧
      (∃ w, w ∈ WEAPONS ∧ w.type = "weapon" ∧
        out.player.inventory = some (inv ++ [w])) ∧
      out.registry = reg ∧
      out.rng = rest ∧
      ∃ m2, out.map = some m2 ∧ getCell m2 (py * (W : ℤ) + px) = some '.' := by
  obtain ⟨hi0, hi1⟩ := getCell_some_bounds hcell
  have hne : ¬ (m.length = 0) := by omega
  have hfind : getItemAtPosition px py reg = (none, reg) :=
    getItemAtPosition_none px py reg hreg
  have hW : getItemsByType "weapon" = WEAPONS := by decide
  have hpos : 0 < (getItemsByType "weapon").length := by decide
  refine ⟨⟨true,
      addToInventory player ((getItemsByType "weapon").get
        ⟨(draw (r :: rest)).floorMul (getItemsByType "weapon").length,
          U01.floorMul_lt _ _ hpos⟩),
      some (setCell m (py * (W : ℤ) + px) '.'), reg, drawRest (r :: rest)⟩,
    ?_, rfl, ?_, rfl, rfl, ?_⟩
  · simp only [pickupItem, hx, hy, if_neg hne, hfind]
    simp [hcell, hpos]
  · have hmem : (getItemsByType "weapon").get
        ⟨(draw (r :: rest)).floorMul (getItemsByType "weapon").length,
          U01.floorMul_lt _ _ hpos⟩ ∈ WEAPONS := by
      rw [← hW]
      exact List.get_mem _ _ _
    refine ⟨_, hmem, weapons_all_weapon_type _ hmem, ?_⟩
    simp [addToInventory, hinv]
  · exact ⟨_, rfl, getCell_setCell_self '.' hi0 hi1⟩

/-- A valid player standing at (2,0) with an empty inventory. -/
def fallbackPlayer : PlayerJs := ⟨some 2, some 0, some [], emptyEquipment⟩

/-- The draw 1/3, a legal `Math.random()` value. -/
def thirdDraw : U01 := ⟨1, 3, by decide⟩

/-- C5 (witness): the fallback statement at a concrete input — a five-cell
row whose third cell carries the weapon symbol and an empty registry. -/
theorem pickup_fallback_weapon_witness :
    ∃ out : PickupOut,
      pickupItem 5 (some fallbackPlayer) (some ['.', '.', '\\', '.', '.'])
          [] (thirdDraw :: []) = Except.ok out ∧
      out.ret = true ∧
      (∃ w, w ∈ WEAPONS ∧ w.type = "weapon" ∧
        out.player.inventory = some ([] ++ [w])) ∧
      out.registry = [] ∧
      out.rng = [] ∧
      ∃ m2, out.map = some m2 ∧
        getCell m2 ((0 : ℤ) * ((5 : ℕ) : ℤ) + (2 : ℤ)) = some '.' :=
  pickup_fallback_weapon 5 ['.', '.', '\\', '.', '.'] [] fallbackPlayer 2 0 []
    thirdDraw [] rfl rfl rfl (by decide) (by decide)

/-- Frame property on equipment: every occupied slot keeps its exact
contents (hand arrays stay untouched when non-empty, occupied armor slots
and occupied ring/talisman indices are unchanged). -/
def noOverwrite (e e2 : Equipment) : Prop :=
  (e.rightHand ≠ [] → e2.rightHand = e.rightHand) ∧
  (e.leftHand ≠ [] → e2.leftHand = e.leftHand) ∧
  (∀ a : Item, e.head = some a → e2.head = some a) ∧
  (∀ a : Item, e.chest = some a → e2.chest = some a) ∧
  (∀ a : Item, e.legs = some a → e2.legs = some a) ∧
  (∀ a : Item, e.arms = some a → e2.arms = some a) ∧
  (∀ (i : ℕ) (a : Item), e.rings.get? i = some (some a) →
    e2.rings.get? i = some (some a)) ∧
  (∀ (i : ℕ) (a : Item), e.talismans.get? i = some (some a) →
    e2.talismans.get? i = some (some a))

theorem noOverwrite_refl (e : Equipment) : noOverwrite e e :=
  ⟨fun _ => rfl, fun _ => rfl, fun _ h => h, fun _ h => h, fun _ h => h,
   fun _ h => h, fun _ _ h => h, fun _ _ h => h⟩

theorem equipFirstEmpty_preserves (it : Item) (l l2 : List (Option Item))
    (h : equipFirstEmpty it l = some l2) :
    ∀ (i : ℕ) (a : Item), l.get? i = some (some a) → l2.get? i = some (some a) := by
  induction l generalizing l2 with
  | nil => exact absurd h (by simp [equipFirstEmpty])
  | cons hd tl ih =>
    cases hd with
    | none =>
      rw [equipFirstEmpty] at h
      injection h with h
      subst h
      intro i a hi
      cases i with
      | zero => simp at hi
      | succ k => simpa using hi
    | some x =>
      rw [equipFirstEmpty] at h
      rcases hopt : equipFirstEmpty it tl with _ | l3
      · rw [hopt] at h
        exact absurd h (by simp)
      · rw [hopt] at h
        have h2 : some x :: l3 = l2 := by simpa using h
        subst h2
        intro i a hi
        cases i with
        | zero => simpa using hi
        | succ k => simpa using ih l3 hopt k a (by simpa using hi)

theorem slotSet_noOverwrite (e : Equipment) (s : String) (it : Item)
    (h : slotTruthy e s = false) : noOverwrite e (slotSet e s it) := by
  unfold slotSet
  split <;> simp_all [slotTruthy, noOverwrite]

theorem autoEquip_frame_aux (player : PlayerJs) (item? : Option Item) :
    noOverwrite player.equipment (autoEquipItem player item?).2.equipment ∧
    ((autoEquipItem player item?).1 = false →
      (autoEquipItem player item?).2 = player) := by
  cases item? with
  | none => exact ⟨noOverwrite_refl _, fun _ => rfl⟩
  | some item =>
    by_cases hw : item.type = "weapon"
    · by_cases hr : player.equipment.rightHand = []
      · have hres : autoEquipItem player (some item)
            = (true, { player with equipment :=
                { player.equipment with
                    rightHand := player.equipment.rightHand ++ [item] } }) := by
          simp [autoEquipItem, hw, hr]
        rw [hres]
        exact ⟨⟨fun hne => absurd hr hne, fun _ => rfl, fun _ h => h, fun _ h => h,
          fun _ h => h, fun _ h => h, fun _ _ h => h, fun _ _ h => h⟩,
          fun hf => nomatch hf⟩
      · by_cases hl : player.equipment.leftHand = []
        · have hres : autoEquipItem player (some item)
              = (true, { player with equipment :=
                  { player.equipment with
                      leftHand := player.equipment.leftHand ++ [item] } }) := by
            simp [autoEquipItem, hw, hr, hl]
          rw [hres]
          exact ⟨⟨fun _ => rfl, fun hne => absurd hl hne, fun _ h => h, fun _ h => h,
            fun _ h => h, fun _ h => h, fun _ _ h => h, fun _ _ h => h⟩,
            fun hf => nomatch hf⟩
        · have hres : autoEquipItem player (some item) = (false, player) := by
            simp [autoEquipItem, hw, hr, hl]
          rw [hres]
          exact ⟨noOverwrite_refl _, fun _ => rfl⟩
    · by_cases ha : item.type = "armor"
      · rcases hslot : item.slot with _ | s
        · have hres : autoEquipItem player (some item) = (false, player) := by
            simp [autoEquipItem, hw, ha, hslot]
          rw [hres]
          exact ⟨noOverwrite_refl _, fun _ => rfl⟩
        · by_cases hcond : s ≠ "" ∧ slotTruthy player.equipment s = false
          · have hres : autoEquipItem player (some item)
                = (true, { player with
                    equipment := slotSet player.equipment s item }) := by
              simp [autoEquipItem, hw, ha, hslot, hcond]
            rw [hres]
            exact ⟨slotSet_noOverwrite _ s item hcond.2, fun hf => nomatch hf⟩
          · have hres : autoEquipItem player (some item) = (false, player) := by
              simp [autoEquipItem, hw, ha, hslot, hcond]
            rw [hres]
            exact ⟨noOverwrite_refl _, fun _ => rfl⟩
      · by_cases hri : item.type = "ring"
        · rcases hopt : equipFirstEmpty item player.equipment.rings with _ | l
          · have hres : autoEquipItem player (some item) = (false, player) := by
              simp [autoEquipItem, hw, ha, hri, hopt]
            rw [hres]
            exact ⟨noOverwrite_refl _, fun _ => rfl⟩
          · have hres : autoEquipItem player (some item)
                = (true, { player with equipment :=
                    { player.equipment with rings := l } }) := by
              simp [autoEquipItem, hw, ha, hri, hopt]
            rw [hres]
            exact ⟨⟨fun _ => rfl, fun _ => rfl, fun _ h => h, fun _ h => h,
              fun _ h => h, fun _ h => h,
              fun i a hi => equipFirstEmpty_preserves item _ l hopt i a hi,
              fun _ _ h => h⟩, fun hf => nomatch hf⟩
        · by_cases hta : item.type = "talisman"
          · rcases hopt : equipFirstEmpty item player.equipment.talismans with _ | l
            · have hres : autoEquipItem player (some item) = (false, player) := by
                simp [autoEquipItem, hw, ha, hri, hta, hopt]
              rw [hres]
              exact ⟨noOverwrite_refl _, fun _ => rfl⟩
            · have hres : autoEquipItem player (some item)
                  = (true, { player with equipment :=
                      { player.equipment with talismans := l } }) := by
                simp [autoEquipItem, hw, ha, hri, hta, hopt]
              rw [hres]
              exact ⟨⟨fun _ => rfl, fun _ => rfl, fun _ h => h, fun _ h => h,
                fun _ h => h, fun _ h => h, fun _ _ h => h,
                fun i a hi => equipFirstEmpty_preserves item _ l hopt i a hi⟩,
                fun hf => nomatch hf⟩
          · have hres : autoEquipItem player (some item) = (false, player) := by
              simp [autoEquipItem, hw, ha, hri, hta]
            rw [hres]
            exact ⟨noOverwrite_refl _, fun _ => rfl⟩

theorem autoEquip_weapon_full (player : PlayerJs) (it : Item)
    (hty : it.type = "weapon") (hr : player.equipment.rightHand ≠ [])
    (hl : player.equipment.leftHand ≠ []) :
    autoEquipItem player (some it) = (false, player) := by
  simp [autoEquipItem, hty, hr, hl]

/-- C4: `autoEquipItem` never overwrites an occupied equipment slot (every
occupied slot of the input equipment is unchanged in the output), an
unsuccessful call leaves the player entirely unchanged (hard failure, no
swap), and in particular equipping a weapon when both `rightHand` and
`leftHand` are non-empty returns false and changes nothing. -/
theorem autoEquip_never_overwrites (player : PlayerJs) (item? : Option Item) :
    noOverwrite player.equipment (autoEquipItem player item?).2.equipment ∧
    ((autoEquipItem player item?).1 = false →
      (autoEquipItem player item?).2 = player) ∧
    (∀ it : Item, item? = some it → it.type = "weapon" →
      player.equipment.rightHand ≠ [] → player.equipment.leftHand ≠ [] →
      autoEquipItem player item? = (false, player)) :=
  ⟨(autoEquip_frame_aux player item?).1, (autoEquip_frame_aux player item?).2,
   fun it heq hty hr hl => by
     rw [heq]
     exact autoEquip_weapon_full player it hty hr hl⟩

/-- A player with a weapon in each hand. -/
def bothHandsFull : PlayerJs :=
  ⟨none, none, some [],
    ⟨[greatsword], [shortSword], none, none, none, none, [none, none], [none, none]⟩⟩

/-- C4 (witness): equipping a further weapon with both hands occupied at a
concrete input fails and changes nothing. -/
theorem autoEquip_never_overwrites_witness :
    autoEquipItem bothHandsFull (some handAxe) = (false, bothHandsFull) :=
  (autoEquip_never_overwrites bothHandsFull (some handAxe)).2.2 handAxe rfl
    (by decide) (by decide) (by decide)
